import Mathlib

/-!
Shallow embedding of the WEJÀ WAF gateway (`waf-proxy/server.js`).

Modelling conventions:
* Instants are `Int` milliseconds (`Date.now()`); JS number subtraction is `Int` subtraction.
* The JS `Map`s `ipBlacklist` and `ipAttackCount` are association lists with JS `Map`
  semantics: `set` replaces the first binding in place, `delete` removes the binding,
  `get` returns the first binding.
* `confidence` values are rationals.
* The in-memory log store `inMemoryLogs` is a `List LogRecord`, newest first.
  The fresh `_id` string and the `timestamp`/`createdAt`/`updatedAt` metadata stamped
  by `saveLog` in memory mode are nondeterministic bookkeeping (clock + PRNG) and are
  elided; no claim inspects them.
* The external classification oracle's answer and the durable (MongoDB) write outcome
  are inputs to the pipeline function: `Verdict.ok b t c` is a 2xx reply
  `{blocked, type, confidence}`, `Verdict.failure` is a timeout / non-2xx /
  connection error (axios throw), and `durableOk` tells whether `logEntry.save()`
  resolves or rejects.
-/

set_option linter.all false

namespace Weja

/-- JS `Map.get`: first binding for the key, if any. -/
def mapGet {α : Type} (m : List (String × α)) (k : String) : Option α :=
  match m with
  | [] => none
  | p :: rest => if p.1 = k then some p.2 else mapGet rest k

/-- JS `Map.set`: replace the binding in place if the key is present, else append. -/
def mapSet {α : Type} (m : List (String × α)) (k : String) (v : α) : List (String × α) :=
  match m with
  | [] => [(k, v)]
  | p :: rest => if p.1 = k then (k, v) :: rest else p :: mapSet rest k v

/-- JS `Map.delete`: drop the binding for the key. -/
def mapDelete {α : Type} (m : List (String × α)) (k : String) : List (String × α) :=
  m.filter (fun p => decide (p.1 ≠ k))

/-- JS `Math.ceil(a / 1000)` on an integral number of milliseconds. -/
def jsCeil1000 (a : Int) : Int := -(Int.ediv (-a) 1000)

-- ============ CONFIGURATION / CONSTANTS ============

def BLACKLIST_THRESHOLD : Nat := 3

def BLACKLIST_DURATION : Int := 60 * 60 * 1000

def MAX_MEMORY_LOGS : Nat := 1000

-- ============ GEOLOCATION (simulated) ============

structure GeoLocation where
  country : String
  city : String
  lat : Rat
  lon : Rat
deriving DecidableEq, Repr

def geoLocal : GeoLocation := { country := "Local", city := "Localhost", lat := 0, lon := 0 }

def geoLan : GeoLocation := { country := "Private Network", city := "LAN", lat := 0, lon := 0 }

def defaultGeoLocations : List GeoLocation :=
  [ { country := "United States", city := "New York", lat := 40.7128, lon := -74.0060 },
    { country := "Russia", city := "Moscow", lat := 55.7558, lon := 37.6173 },
    { country := "China", city := "Beijing", lat := 39.9042, lon := 116.4074 },
    { country := "Germany", city := "Berlin", lat := 52.5200, lon := 13.4050 },
    { country := "Brazil", city := "São Paulo", lat := -23.5505, lon := -46.6333 },
    { country := "India", city := "Mumbai", lat := 19.0760, lon := 72.8777 },
    { country := "Nigeria", city := "Lagos", lat := 6.5244, lon := 3.3792 },
    { country := "Australia", city := "Sydney", lat := -33.8688, lon := 151.2093 } ]

/-- JS `String.prototype.startsWith`, as a prefix test on the character lists. -/
def strStarts (s pre : String) : Bool := pre.toList.isPrefixOf s.toList

/-- Source `getGeoLocation(ip)`: fixed answers for loopback / private ranges, otherwise a
hash of the character codes picks a deterministic entry of the default table. -/
def getGeoLocation (ip : String) : GeoLocation :=
  if ip = "127.0.0.1" ∨ ip = "::1" ∨ ip = "::ffff:127.0.0.1" then geoLocal
  else if strStarts ip "192.168." ∨ strStarts ip "::ffff:192.168." then geoLan
  else if strStarts ip "10." ∨ strStarts ip "::ffff:10." then geoLan
  else
    let hash := (ip.toList.map Char.toNat).sum
    defaultGeoLocations.getD (hash % defaultGeoLocations.length) geoLocal

-- ============ STATE ============

structure BLEntry where
  blockedAt : Int
  reason : String
  autoBlocked : Bool
  geo : GeoLocation
deriving DecidableEq, Repr

def defaultEntry : BLEntry :=
  { blockedAt := 0, reason := "", autoBlocked := false, geo := geoLocal }

structure LogRecord where
  method : String
  path : String
  query : List (String × String)
  body : List (String × String)
  headers : List (String × Option String)
  sourceIp : String
  userAgent : String
  blocked : Bool
  attackType : String
  confidence : Rat
  responseTime : Int
deriving DecidableEq, Repr

structure WafState where
  ipBlacklist : List (String × BLEntry)
  ipAttackCount : List (String × Nat)
  inMemoryLogs : List LogRecord
deriving DecidableEq, Repr

def emptyState : WafState := { ipBlacklist := [], ipAttackCount := [], inMemoryLogs := [] }

-- ============ IP BLACKLIST SYSTEM ============

/-- Source `isBlacklisted(ip)`: true iff an entry exists and has not expired; an expired
entry found during the check is deleted (lazy eviction). -/
def isBlacklisted (now : Int) (s : WafState) (ip : String) : Bool × WafState :=
  match mapGet s.ipBlacklist ip with
  | none => (false, s)
  | some entry =>
    if now - entry.blockedAt > BLACKLIST_DURATION then
      (false, { s with ipBlacklist := mapDelete s.ipBlacklist ip })
    else
      (true, s)

/-- Source `addToBlacklist(ip, reason, autoBlocked)`: stamp `blockedAt = now`, resolve geo. -/
def addToBlacklist (now : Int) (s : WafState) (ip reason : String) (autoBlocked : Bool) :
    WafState :=
  let entry : BLEntry :=
    { blockedAt := now, reason := reason, autoBlocked := autoBlocked,
      geo := getGeoLocation ip }
  { s with ipBlacklist := mapSet s.ipBlacklist ip entry }

/-- Source `trackAttack(ip, attackType)`: increment the counter; when the new count reaches
the threshold and the address is not currently blacklisted (short-circuit `&&`,
so `isBlacklisted` only runs when the count test passes), auto-block it. -/
def trackAttack (now : Int) (s : WafState) (ip attackType : String) : WafState :=
  let count := (mapGet s.ipAttackCount ip).getD 0 + 1
  let s1 := { s with ipAttackCount := mapSet s.ipAttackCount ip count }
  if count ≥ BLACKLIST_THRESHOLD then
    match isBlacklisted now s1 ip with
    | (true, s2) => s2
    | (false, s2) =>
        addToBlacklist now s2 ip
          ("Auto-blocked after " ++ toString count ++ " attacks (" ++ attackType ++ ")") true
  else s1

-- ============ LOG SINK ============

/-- The branch condition of `saveLog` (and of every dual-mode API route):
`useInMemory || mongoose.connection.readyState !== 1`. `useInMemory` is assigned
once, by the startup `mongoose.connect` callbacks, and never afterwards. -/
def saveLogSelectsMemory (useInMemory : Bool) (readyState : Nat) : Bool :=
  useInMemory || readyState != 1

/-- Memory-mode body of `saveLog`: unshift the record, pop the oldest past the cap. -/
def saveLogMemList (logData : LogRecord) (logs : List LogRecord) : List LogRecord :=
  let logs' := logData :: logs
  if logs'.length > MAX_MEMORY_LOGS then logs'.dropLast else logs'

/-- Source `saveLog(logData)`: memory mode always resolves and updates the in-memory list;
durable mode leaves the in-memory list alone and resolves or rejects according to
the backend write outcome `durableOk`. -/
def saveLog (useInMemory : Bool) (readyState : Nat) (durableOk : Bool)
    (logData : LogRecord) (logs : List LogRecord) : Except Unit (List LogRecord) :=
  if saveLogSelectsMemory useInMemory readyState then
    .ok (saveLogMemList logData logs)
  else if durableOk then
    .ok logs
  else
    .error ()

-- ============ WAF MIDDLEWARE ============

/-- Outcome of the single `axios.post` to the classification oracle. -/
inductive Verdict where
  | ok (blocked : Bool) (type : String) (confidence : Rat)
  | failure
deriving DecidableEq, Repr

/-- Whether a verdict is a 2xx reply with `blocked: true`. -/
def Verdict.isBlockedVerdict : Verdict → Bool
  | .ok b _ _ => b
  | .failure => false

/-- An inbound request as the middleware sees it; `ip` is the resolved client
address (`req.ip || req.connection.remoteAddress || 'unknown'`). -/
structure Request where
  method : String
  path : String
  query : List (String × String)
  body : List (String × String)
  userAgent : Option String
  contentType : Option String
  host : Option String
  ip : String
deriving DecidableEq, Repr

/-- HTTP outcome of the middleware. The fixed JSON text of each body is determined
by the constructor; `denyBlacklisted` carries `blacklistReason` and the
`remainingTime` seconds, `denyBlocked` carries the verdict fields (the fresh log
`_id` echoed as `requestId` is elided), `forward` is `next()`. -/
inductive WafResponse where
  | denyBlacklisted (blacklistReason : String) (remainingTime : Int)
  | denyBlocked (attackType : String) (confidence : Rat)
  | forward
deriving DecidableEq, Repr

structure MwResult where
  response : WafResponse
  state : WafState
  classifierCalled : Bool
  attempted : List LogRecord
deriving DecidableEq, Repr

/-- The DecisionRecord logged on the blacklist short-circuit path (only the
user-agent header is captured there). -/
def blacklistedRecord (now startTime : Int) (req : Request) : LogRecord :=
  { method := req.method, path := req.path, query := req.query, body := req.body,
    headers := [("user-agent", req.userAgent)], sourceIp := req.ip,
    userAgent := req.userAgent.getD "", blocked := true,
    attackType := "BLACKLISTED", confidence := 1, responseTime := now - startTime }

/-- The DecisionRecord logged after a classification verdict. -/
def classifiedRecord (now startTime : Int) (req : Request) (vBlocked : Bool)
    (vType : String) (vConf : Rat) : LogRecord :=
  { method := req.method, path := req.path, query := req.query, body := req.body,
    headers := [("user-agent", req.userAgent), ("content-type", req.contentType),
                ("host", req.host)],
    sourceIp := req.ip, userAgent := req.userAgent.getD "", blocked := vBlocked,
    attackType := vType, confidence := vConf, responseTime := now - startTime }

/-- The DecisionRecord logged by the catch block (`attackType = ERROR`). -/
def errorRecord (now startTime : Int) (req : Request) : LogRecord :=
  { method := req.method, path := req.path, query := req.query, body := req.body,
    headers := [("user-agent", req.userAgent), ("content-type", req.contentType),
                ("host", req.host)],
    sourceIp := req.ip, userAgent := req.userAgent.getD "", blocked := false,
    attackType := "ERROR", confidence := 0, responseTime := now - startTime }

/-- The `catch` block of `wafMiddleware`: log an `ERROR` record (failure swallowed by
`.catch`) and fall through to `next()`. Reached when the oracle call throws and also
when the un-guarded `saveLog` of the classified path rejects. -/
def wafErrorPath (now startTime : Int) (useInMemory : Bool) (readyState : Nat)
    (durableOk : Bool) (req : Request) (s : WafState) (prevAttempted : List LogRecord) :
    MwResult :=
  let recErr := errorRecord now startTime req
  let logs :=
    match saveLog useInMemory readyState durableOk recErr s.inMemoryLogs with
    | .ok l => l
    | .error _ => s.inMemoryLogs
  { response := .forward, state := { s with inMemoryLogs := logs },
    classifierCalled := true, attempted := prevAttempted ++ [recErr] }

/-- Source `wafMiddleware`: blacklist short-circuit, then oracle call, decision log,
escalation and allow/deny. `verdict` is the oracle call's outcome, `durableOk`
the durable backend's write outcome for this request. -/
def wafMiddleware (now : Int) (useInMemory : Bool) (readyState : Nat) (durableOk : Bool)
    (req : Request) (verdict : Verdict) (s : WafState) : MwResult :=
  let startTime := now
  match isBlacklisted now s req.ip with
  | (true, s1) =>
    let entry := (mapGet s1.ipBlacklist req.ip).getD defaultEntry
    let rec1 := blacklistedRecord now startTime req
    let logs :=
      match saveLog useInMemory readyState durableOk rec1 s1.inMemoryLogs with
      | .ok l => l
      | .error _ => s1.inMemoryLogs
    { response := .denyBlacklisted entry.reason
        (jsCeil1000 (BLACKLIST_DURATION - (now - entry.blockedAt))),
      state := { s1 with inMemoryLogs := logs },
      classifierCalled := false, attempted := [rec1] }
  | (false, s1) =>
    match verdict with
    | .failure => wafErrorPath now startTime useInMemory readyState durableOk req s1 []
    | .ok vBlocked vType vConf =>
      let rec2 := classifiedRecord now startTime req vBlocked vType vConf
      match saveLog useInMemory readyState durableOk rec2 s1.inMemoryLogs with
      | .error _ => wafErrorPath now startTime useInMemory readyState durableOk req s1 [rec2]
      | .ok logs =>
        let s2 := { s1 with inMemoryLogs := logs }
        if vBlocked then
          let s3 := trackAttack now s2 req.ip vType
          { response := .denyBlocked vType vConf, state := s3,
            classifierCalled := true, attempted := [rec2] }
        else
          { response := .forward, state := s2, classifierCalled := true,
            attempted := [rec2] }

-- ============ API ROUTES ============

/-- Route `GET /api/logs` in memory mode: `slice(skip, skip + limit)` of the newest-first
list together with the total count, where `skip = (page - 1) * limit`. -/
def apiLogs (page limit : Nat) (logs : List LogRecord) : List LogRecord × Nat :=
  let skip := (page - 1) * limit
  ((logs.drop skip).take limit, logs.length)

/-- One element of the `GET /api/blacklist` answer. `blockedAt` is kept as the
stored instant (the route renders it as an ISO string; its comparator
`b.blockedAt - a.blockedAt` is NaN on such strings, so the `sort` keeps
iteration order and is the identity). -/
structure BlacklistItem where
  ip : String
  blockedAt : Int
  reason : String
  autoBlocked : Bool
  geo : GeoLocation
  remainingSeconds : Int
deriving DecidableEq, Repr

/-- The object pushed for one table entry by the `GET /api/blacklist` loop. -/
def mkBlacklistItem (now : Int) (p : String × BLEntry) : BlacklistItem :=
  { ip := p.1, blockedAt := p.2.blockedAt, reason := p.2.reason,
    autoBlocked := p.2.autoBlocked, geo := p.2.geo,
    remainingSeconds := jsCeil1000 (BLACKLIST_DURATION - (now - p.2.blockedAt)) }

/-- Body of the `GET /api/blacklist` loop over the entry table. -/
def blacklistEntries (now : Int) (l : List (String × BLEntry)) : List BlacklistItem :=
  l.filterMap (fun p =>
    if now - p.2.blockedAt ≤ BLACKLIST_DURATION then some (mkBlacklistItem now p)
    else none)

/-- Route `GET /api/blacklist`: every stored entry still within its validity window,
with remaining seconds computed at call time. -/
def apiBlacklistList (now : Int) (s : WafState) : List BlacklistItem :=
  blacklistEntries now s.ipBlacklist

/-- The `blacklistedIPs` field of `GET /api/health`: `ipBlacklist.size`. -/
def apiHealthBlacklistedIPs (s : WafState) : Nat := s.ipBlacklist.length

/-- Route `DELETE /api/blacklist/:ip`: 404 when absent, otherwise remove the entry and
the attack counter. Presence is `ipBlacklist.has(ip)`, ignoring expiry. -/
def deleteBlacklist (s : WafState) (ip : String) : Nat × WafState :=
  if (mapGet s.ipBlacklist ip).isSome then
    let s1 : WafState :=
      { s with ipBlacklist := mapDelete s.ipBlacklist ip,
               ipAttackCount := mapDelete s.ipAttackCount ip }
    (200, s1)
  else
    (404, s)

-- ============ PROXY FORWARDER ============

/-- What the origin did with the forwarded request. -/
inductive OriginOutcome where
  | response (status : Nat) (body : String)
  | noResponse
deriving DecidableEq, Repr

/-- Body of the proxy route's reply: the origin's body relayed, or the fixed
`502` payload `\x7b error: 'Bad Gateway', message: 'Unable to reach target server' \x7d`. -/
inductive ProxyBody where
  | origin (body : String)
  | gatewayError (error message : String)
deriving DecidableEq, Repr

/-- The `/proxy` handler after the middleware: a 2xx resolves and is relayed; a
non-2xx makes axios reject with `error.response`, which the catch relays with the
same status and body; no response at all (connection failure / 10s timeout)
yields the synthesized 502. -/
def proxyForward (o : OriginOutcome) : Nat × ProxyBody :=
  match o with
  | .response status body =>
    if 200 ≤ status && status < 300 then (status, .origin body)
    else (status, .origin body)
  | .noResponse => (502, .gatewayError "Bad Gateway" "Unable to reach target server")

-- ============ SAMPLE INPUTS (for closed counterexamples and witnesses) ============

def rSample : LogRecord :=
  { method := "GET", path := "/", query := [], body := [], headers := [], sourceIp := "8.8.8.8",
    userAgent := "", blocked := false, attackType := "SAFE", confidence := 0, responseTime := 0 }

def reqSample : Request :=
  { method := "GET", path := "/x", query := [], body := [], userAgent := some "ua",
    contentType := none, host := some "h", ip := "8.8.8.8" }

def reqSampleBl : Request := { reqSample with ip := "1.2.3.4" }

def entrySample : BLEntry :=
  { blockedAt := 0, reason := "manual", autoBlocked := false, geo := geoLocal }

/-- A state holding one manually blocked address, stamped at instant 0. -/
def sOneBlocked : WafState := { emptyState with ipBlacklist := [("1.2.3.4", entrySample)] }

/-- A state holding one entry that is past expiry at any instant beyond the window. -/
def sExpiredEntry : WafState :=
  { emptyState with ipBlacklist :=
      [("7.7.7.7", { blockedAt := 0, reason := "r", autoBlocked := true, geo := geoLocal })] }

-- ============ HELPER LEMMAS ============

theorem mapGet_mapSet_self {α : Type} (m : List (String × α)) (k : String) (v : α) :
    mapGet (mapSet m k v) k = some v := by
  induction m with
  | nil => simp [mapSet, mapGet]
  | cons p rest ih =>
    by_cases h : p.1 = k
    · simp [mapSet, h, mapGet]
    · simp [mapSet, h, mapGet, ih]

theorem mapGet_mapDelete_self {α : Type} (m : List (String × α)) (k : String) :
    mapGet (mapDelete m k) k = none := by
  induction m with
  | nil => simp [mapDelete, mapGet]
  | cons p rest ih =>
    by_cases h : p.1 = k
    · simpa [mapDelete, h] using ih
    · simpa [mapDelete, h, mapGet] using ih

theorem mapGet_mem {α : Type} {m : List (String × α)} {k : String} {v : α}
    (h : mapGet m k = some v) : (k, v) ∈ m := by
  induction m with
  | nil => simp [mapGet] at h
  | cons p rest ih =>
    obtain ⟨a, b⟩ := p
    by_cases hk : a = k
    · simp only [mapGet, hk, if_pos] at h
      rw [Option.some_inj] at h
      subst hk
      subst h
      exact List.mem_cons_self _ _
    · simp only [mapGet, hk, if_neg, not_false_iff] at h
      exact List.mem_cons_of_mem _ (ih h)

theorem mapGet_eq_some_of_mem {α : Type} {m : List (String × α)} {k : String} {v : α}
    (hmem : (k, v) ∈ m) (hnd : (m.map Prod.fst).Nodup) : mapGet m k = some v := by
  induction m with
  | nil => simp at hmem
  | cons p rest ih =>
    rcases List.mem_cons.mp hmem with h | h
    · subst h
      simp [mapGet]
    · have hk : p.1 ≠ k := by
        intro he
        have hmemk : k ∈ rest.map Prod.fst := List.mem_map.mpr ⟨(k, v), h, rfl⟩
        rw [List.map_cons, List.nodup_cons] at hnd
        exact hnd.1 (he ▸ hmemk)
      have hrest : (rest.map Prod.fst).Nodup := by
        rw [List.map_cons, List.nodup_cons] at hnd
        exact hnd.2
      simp [mapGet, hk, ih h hrest]

theorem isBlacklisted_true_iff (now : Int) (s : WafState) (ip : String) :
    (isBlacklisted now s ip).1 = true ↔
      ∃ e, mapGet s.ipBlacklist ip = some e ∧ now - e.blockedAt ≤ BLACKLIST_DURATION := by
  unfold isBlacklisted
  cases h : mapGet s.ipBlacklist ip with
  | none => simp
  | some e =>
    by_cases hc : now - e.blockedAt > BLACKLIST_DURATION
    · simp only [hc, if_pos]
      constructor
      · intro hf; cases hf
      · rintro ⟨e', he', hle⟩
        rw [Option.some_inj] at he'
        subst he'
        exact absurd hle (not_le.mpr hc)
    · simp only [hc, if_neg, not_false_iff]
      constructor
      · intro _
        exact ⟨e, rfl, not_lt.mp hc⟩
      · intro _
        trivial

theorem isBlacklisted_true_state {now : Int} {s : WafState} {ip : String}
    (h : (isBlacklisted now s ip).1 = true) : (isBlacklisted now s ip).2 = s := by
  unfold isBlacklisted at h ⊢
  cases hm : mapGet s.ipBlacklist ip with
  | none => rfl
  | some e =>
    by_cases hc : now - e.blockedAt > BLACKLIST_DURATION
    · rw [hm] at h
      simp only [hc, if_pos] at h
      cases h
    · simp only [hm, hc, if_neg, not_false_iff]

theorem isBlacklisted_ipAttackCount (now : Int) (s : WafState) (ip : String) :
    (isBlacklisted now s ip).2.ipAttackCount = s.ipAttackCount := by
  unfold isBlacklisted
  cases mapGet s.ipBlacklist ip with
  | none => rfl
  | some e =>
    by_cases hc : now - e.blockedAt > BLACKLIST_DURATION
    · simp [hc]
    · simp [hc]

theorem isBlacklisted_inMemoryLogs (now : Int) (s : WafState) (ip : String) :
    (isBlacklisted now s ip).2.inMemoryLogs = s.inMemoryLogs := by
  unfold isBlacklisted
  cases mapGet s.ipBlacklist ip with
  | none => rfl
  | some e =>
    by_cases hc : now - e.blockedAt > BLACKLIST_DURATION
    · simp [hc]
    · simp [hc]

theorem mem_blacklistEntries_iff (now : Int) (l : List (String × BLEntry)) (ip : String)
    (hnd : (l.map Prod.fst).Nodup) :
    ip ∈ (blacklistEntries now l).map BlacklistItem.ip ↔
      ∃ e, mapGet l ip = some e ∧ now - e.blockedAt ≤ BLACKLIST_DURATION := by
  constructor
  · intro h
    obtain ⟨x, hx, hxip⟩ := List.mem_map.mp h
    simp only [blacklistEntries] at hx
    obtain ⟨p, hp, hfp⟩ := List.mem_filterMap.mp hx
    by_cases hcond : now - p.2.blockedAt ≤ BLACKLIST_DURATION
    · rw [if_pos hcond, Option.some_inj] at hfp
      have hip : p.1 = ip := by rw [← hxip, ← hfp]; rfl
      have hmem : (ip, p.2) ∈ l := by
        rw [← hip]
        simpa using hp
      exact ⟨p.2, mapGet_eq_some_of_mem hmem hnd, hcond⟩
    · rw [if_neg hcond] at hfp
      cases hfp
  · rintro ⟨e, he, hle⟩
    have hmem : (ip, e) ∈ l := mapGet_mem he
    have hitem : mkBlacklistItem now (ip, e) ∈ blacklistEntries now l := by
      simp only [blacklistEntries]
      apply List.mem_filterMap.mpr
      exact ⟨(ip, e), hmem, by rw [if_pos hle]⟩
    exact List.mem_map.mpr ⟨_, hitem, rfl⟩

theorem length_filterMap_guard {α β : Type} (c : α → Prop) [DecidablePred c] (g : α → β)
    (l : List α) :
    (l.filterMap (fun a => if c a then some (g a) else none)).length
      = (l.filter (fun a => decide (c a))).length := by
  induction l with
  | nil => rfl
  | cons a rest ih =>
    by_cases hc : c a
    · simp [List.filterMap_cons, List.filter_cons, hc, ih]
    · simp [List.filterMap_cons, List.filter_cons, hc, ih]

theorem length_blacklistEntries (now : Int) (l : List (String × BLEntry)) :
    (blacklistEntries now l).length
      = (l.filter (fun p => decide (now - p.2.blockedAt ≤ BLACKLIST_DURATION))).length := by
  simpa only [blacklistEntries] using
    length_filterMap_guard (fun p => now - p.2.blockedAt ≤ BLACKLIST_DURATION)
      (mkBlacklistItem now) l

theorem buildLogs_eq (ds : List LogRecord) (acc : List LogRecord)
    (h : ds.length + acc.length ≤ MAX_MEMORY_LOGS) :
    ds.foldl (fun a d => saveLogMemList d a) acc = ds.reverse ++ acc := by
  induction ds generalizing acc with
  | nil => simp
  | cons d rest ih =>
    have hc : ¬((d :: acc).length > MAX_MEMORY_LOGS) := by
      simp only [List.length_cons, MAX_MEMORY_LOGS]
      simp only [List.length_cons, MAX_MEMORY_LOGS] at h
      omega
    have hstep : saveLogMemList d acc = d :: acc := by
      simp only [saveLogMemList]
      rw [if_neg hc]
    rw [List.foldl_cons, hstep, ih (d :: acc) (by simp at h ⊢; omega)]
    simp

theorem trackAttack_ipAttackCount (now : Int) (s : WafState) (ip t : String) :
    mapGet (trackAttack now s ip t).ipAttackCount ip
      = some ((mapGet s.ipAttackCount ip).getD 0 + 1) := by
  unfold trackAttack
  by_cases hth : (mapGet s.ipAttackCount ip).getD 0 + 1 ≥ BLACKLIST_THRESHOLD
  · rw [if_pos hth]
    rcases hbl : isBlacklisted now { s with ipAttackCount := mapSet s.ipAttackCount ip ((mapGet s.ipAttackCount ip).getD 0 + 1) } ip with ⟨b, s2⟩
    have hcnt : s2.ipAttackCount = mapSet s.ipAttackCount ip ((mapGet s.ipAttackCount ip).getD 0 + 1) := by
      have := isBlacklisted_ipAttackCount now { s with ipAttackCount := mapSet s.ipAttackCount ip ((mapGet s.ipAttackCount ip).getD 0 + 1) } ip
      rw [hbl] at this
      exact this
    cases b
    · simp only [addToBlacklist, hcnt]
      exact mapGet_mapSet_self _ _ _
    · simp only [hcnt]
      exact mapGet_mapSet_self _ _ _
  · rw [if_neg hth]
    exact mapGet_mapSet_self _ _ _

theorem autoBlockReason (t : String) :
    "Auto-blocked after " ++ toString (3 : Nat) ++ " attacks (" ++ t ++ ")"
      = "Auto-blocked after 3 attacks (" ++ t ++ ")" := by
  have h : ("Auto-blocked after " ++ toString (3 : Nat)) ++ " attacks ("
      = "Auto-blocked after 3 attacks (" := by decide
  rw [← h]

-- ============ CLAIMS ============

/-- C1, counterexample: the claim that a `saveLog` failure never changes the HTTP
response fails on the classified-deny path. With the durable backend selected
(`useInMemory = false`, `readyState = 1`) and a blocked verdict, a successful log
write yields the 403 deny response while a rejected log write falls into the
middleware's catch block and the request is forwarded (fail-open) instead. -/
theorem C1_counterexample :
    (wafMiddleware 0 false 1 true reqSample (.ok true "SQL_INJECTION" 0) emptyState).response
      ≠ (wafMiddleware 0 false 1 false reqSample (.ok true "SQL_INJECTION" 0) emptyState).response := by
  decide

/-- C1, amended: a failure of the `saveLog` write leaves the HTTP response unchanged
on every path except the classified-deny one — that is, whenever the source address
is blacklisted at entry (403 blacklisted either way) or the oracle's verdict is not
a blocked verdict (forward either way, including the oracle-failure path). -/
theorem C1_amended_log_failure_response (now : Int) (useInMemory : Bool) (readyState : Nat)
    (req : Request) (verdict : Verdict) (s : WafState)
    (h : (isBlacklisted now s req.ip).1 = true ∨ verdict.isBlockedVerdict = false) :
    (wafMiddleware now useInMemory readyState true req verdict s).response
      = (wafMiddleware now useInMemory readyState false req verdict s).response := by
  rcases hbl : isBlacklisted now s req.ip with ⟨b, s1⟩
  cases b
  · cases verdict with
    | failure => simp [wafMiddleware, hbl, wafErrorPath]
    | ok vb vt vc =>
      have hvb : vb = false := by
        rcases h with h | h
        · rw [hbl] at h
          cases h
        · simpa [Verdict.isBlockedVerdict] using h
      subst hvb
      simp only [wafMiddleware, hbl]
      cases hs1 : saveLog useInMemory readyState true
          (classifiedRecord now now req false vt vc) s1.inMemoryLogs with
      | error e =>
        cases hs2 : saveLog useInMemory readyState false
            (classifiedRecord now now req false vt vc) s1.inMemoryLogs with
        | error e2 => simp [hs1, hs2, wafErrorPath]
        | ok l2 => simp [hs1, hs2, wafErrorPath]
      | ok l =>
        cases hs2 : saveLog useInMemory readyState false
            (classifiedRecord now now req false vt vc) s1.inMemoryLogs with
        | error e2 => simp [hs1, hs2, wafErrorPath]
        | ok l2 => simp [hs1, hs2, wafErrorPath]
  · simp only [wafMiddleware, hbl]

/-- C1, amended, witness: the oracle-failure path returns the same response whether
the durable write succeeds or fails. -/
theorem C1_amended_witness :
    (wafMiddleware 0 false 1 true reqSample .failure emptyState).response
      = (wafMiddleware 0 false 1 false reqSample .failure emptyState).response :=
  C1_amended_log_failure_response 0 false 1 reqSample .failure emptyState (Or.inr rfl)

/-- C2, counterexample: at the boundary instant `now - blockedAt = BLACKLIST_DURATION`
the claim says the address is already unblocked and absent from the listing, but the
code (strict `>` in `isBlacklisted`, `<=` in the listing filter) still reports it
blocked and still lists it. -/
theorem C2_counterexample :
    (isBlacklisted BLACKLIST_DURATION sOneBlocked "1.2.3.4").1 = true ∧
    (apiBlacklistList BLACKLIST_DURATION sOneBlocked).map BlacklistItem.ip = ["1.2.3.4"] := by
  decide

/-- C2, amended: an address with a stamped entry is unblocked exactly when
`now - blockedAt > BLACKLIST_DURATION` (strictly past the window, so at the boundary
instant it is still blocked), the listing contains the address exactly under the
same `now - blockedAt ≤ BLACKLIST_DURATION` condition that governs `isBlacklisted`,
and an expired entry found by `isBlacklisted` is lazily evicted. -/
theorem C2_amended_expiry (now : Int) (s : WafState) (ip : String)
    (hnd : (s.ipBlacklist.map Prod.fst).Nodup) :
    ((isBlacklisted now s ip).1 = true ↔
      ∃ e, mapGet s.ipBlacklist ip = some e ∧ now - e.blockedAt ≤ BLACKLIST_DURATION) ∧
    (ip ∈ (apiBlacklistList now s).map BlacklistItem.ip ↔
      ∃ e, mapGet s.ipBlacklist ip = some e ∧ now - e.blockedAt ≤ BLACKLIST_DURATION) ∧
    (∀ e, mapGet s.ipBlacklist ip = some e → now - e.blockedAt > BLACKLIST_DURATION →
      mapGet (isBlacklisted now s ip).2.ipBlacklist ip = none) := by
  refine ⟨isBlacklisted_true_iff now s ip, mem_blacklistEntries_iff now s.ipBlacklist ip hnd, ?_⟩
  intro e he hexp
  unfold isBlacklisted
  simp only [he, hexp, if_pos]
  exact mapGet_mapDelete_self _ _

/-- C2, amended, witness: instantiated at the one-entry state at instant 0. -/
theorem C2_amended_witness :
    (((isBlacklisted 0 sOneBlocked "1.2.3.4").1 = true ↔
      ∃ e, mapGet sOneBlocked.ipBlacklist "1.2.3.4" = some e ∧
        0 - e.blockedAt ≤ BLACKLIST_DURATION) ∧
    ("1.2.3.4" ∈ (apiBlacklistList 0 sOneBlocked).map BlacklistItem.ip ↔
      ∃ e, mapGet sOneBlocked.ipBlacklist "1.2.3.4" = some e ∧
        0 - e.blockedAt ≤ BLACKLIST_DURATION) ∧
    (∀ e, mapGet sOneBlocked.ipBlacklist "1.2.3.4" = some e →
      0 - e.blockedAt > BLACKLIST_DURATION →
      mapGet (isBlacklisted 0 sOneBlocked "1.2.3.4").2.ipBlacklist "1.2.3.4" = none)) :=
  C2_amended_expiry 0 sOneBlocked "1.2.3.4" (by decide)

/-- C3: for an address with no prior attack count and no blacklist entry, and never
blocked in between, the first two `trackAttack` calls leave it unblocked and the
third (threshold 3) auto-blocks it: afterwards `isBlocked` is true and the entry has
`autoBlocked = true`, is stamped at the third call's instant, and its reason embeds
the count and the attack type. -/
theorem C3_auto_block_after_threshold (now1 now2 now3 : Int) (s : WafState) (ip t : String)
    (h0 : mapGet s.ipAttackCount ip = none)
    (hb : mapGet s.ipBlacklist ip = none) :
    (isBlacklisted now1 (trackAttack now1 s ip t) ip).1 = false ∧
    (isBlacklisted now2 (trackAttack now2 (trackAttack now1 s ip t) ip t) ip).1 = false ∧
    (isBlacklisted now3 (trackAttack now3 (trackAttack now2 (trackAttack now1 s ip t) ip t)
      ip t) ip).1 = true ∧
    ∃ e, mapGet (trackAttack now3 (trackAttack now2 (trackAttack now1 s ip t) ip t)
        ip t).ipBlacklist ip = some e ∧
      e.autoBlocked = true ∧ e.blockedAt = now3 ∧
      e.reason = "Auto-blocked after 3 attacks (" ++ t ++ ")" := by
  have e1 : trackAttack now1 s ip t
      = { s with ipAttackCount := mapSet s.ipAttackCount ip 1 } := by
    simp only [trackAttack, h0, Option.getD_none]
    norm_num [BLACKLIST_THRESHOLD]
  have hb1 : mapGet (trackAttack now1 s ip t).ipBlacklist ip = none := by
    rw [e1]
    exact hb
  have e2 : trackAttack now2 (trackAttack now1 s ip t) ip t
      = { s with ipAttackCount := mapSet (mapSet s.ipAttackCount ip 1) ip 2 } := by
    rw [e1]
    simp only [trackAttack, mapGet_mapSet_self, Option.getD_some]
    norm_num [BLACKLIST_THRESHOLD]
  have hb2 : mapGet (trackAttack now2 (trackAttack now1 s ip t) ip t).ipBlacklist ip
      = none := by
    rw [e2]
    exact hb
  have hq : isBlacklisted now3 { s with ipAttackCount := mapSet (mapSet (mapSet s.ipAttackCount ip 1) ip 2) ip 3 } ip
      = (false, { s with ipAttackCount := mapSet (mapSet (mapSet s.ipAttackCount ip 1) ip 2) ip 3 }) := by
    unfold isBlacklisted
    simp [hb]
  have e3 : trackAttack now3 (trackAttack now2 (trackAttack now1 s ip t) ip t) ip t
      = addToBlacklist now3 { s with ipAttackCount := mapSet (mapSet (mapSet s.ipAttackCount ip 1) ip 2) ip 3 } ip
          ("Auto-blocked after " ++ toString (3 : Nat) ++ " attacks (" ++ t ++ ")") true := by
    rw [e2]
    simp only [trackAttack, mapGet_mapSet_self, Option.getD_some]
    norm_num [BLACKLIST_THRESHOLD, hq]
  have hg3 : mapGet (trackAttack now3 (trackAttack now2 (trackAttack now1 s ip t) ip t) ip t).ipBlacklist ip = some { blockedAt := now3, reason := "Auto-blocked after " ++ toString (3 : Nat) ++ " attacks (" ++ t ++ ")", autoBlocked := true, geo := getGeoLocation ip } := by
    rw [e3]
    simp only [addToBlacklist]
    exact mapGet_mapSet_self _ _ _
  refine ⟨?_, ?_, ?_, ?_⟩
  · unfold isBlacklisted
    rw [hb1]
  · unfold isBlacklisted
    rw [hb2]
  · unfold isBlacklisted
    rw [hg3]
    have hnot : ¬(now3 - now3 > BLACKLIST_DURATION) := by
      rw [sub_self]
      decide
    have hpos : ¬(BLACKLIST_DURATION < (0 : Int)) := by decide
    simp [hnot, hpos]
  · refine ⟨_, hg3, rfl, rfl, autoBlockReason t⟩

/-- C3, witness: three attacks from a fresh address at instant 0 auto-block it. -/
theorem C3_witness :
    (isBlacklisted 0 (trackAttack 0 emptyState "9.9.9.9" "SQL_INJECTION") "9.9.9.9").1
      = false ∧
    (isBlacklisted 0 (trackAttack 0 (trackAttack 0 emptyState "9.9.9.9" "SQL_INJECTION")
      "9.9.9.9" "SQL_INJECTION") "9.9.9.9").1 = false ∧
    (isBlacklisted 0 (trackAttack 0 (trackAttack 0 (trackAttack 0 emptyState "9.9.9.9"
      "SQL_INJECTION") "9.9.9.9" "SQL_INJECTION") "9.9.9.9" "SQL_INJECTION") "9.9.9.9").1
      = true ∧
    ∃ e, mapGet (trackAttack 0 (trackAttack 0 (trackAttack 0 emptyState "9.9.9.9"
        "SQL_INJECTION") "9.9.9.9" "SQL_INJECTION") "9.9.9.9"
        "SQL_INJECTION").ipBlacklist "9.9.9.9" = some e ∧
      e.autoBlocked = true ∧ e.blockedAt = 0 ∧
      e.reason = "Auto-blocked after 3 attacks (" ++ "SQL_INJECTION" ++ ")" :=
  C3_auto_block_after_threshold 0 0 0 emptyState "9.9.9.9" "SQL_INJECTION" rfl rfl

/-- C4: on a request whose source address is blacklisted at entry, the pipeline
never invokes the Classification Client, the recorded DecisionRecord has
`attackType = BLACKLISTED`, `confidence = 1.0`, `blocked = true`, and the 403 deny
response carries the stored block reason and the remaining block time. -/
theorem C4_blacklist_short_circuit (now : Int) (useInMemory : Bool) (readyState : Nat)
    (durableOk : Bool) (req : Request) (verdict : Verdict) (s : WafState)
    (hb : (isBlacklisted now s req.ip).1 = true) :
    (wafMiddleware now useInMemory readyState durableOk req verdict s).classifierCalled
      = false ∧
    (∃ e, mapGet s.ipBlacklist req.ip = some e ∧ now - e.blockedAt ≤ BLACKLIST_DURATION ∧
      (wafMiddleware now useInMemory readyState durableOk req verdict s).response
        = .denyBlacklisted e.reason (jsCeil1000 (BLACKLIST_DURATION - (now - e.blockedAt)))) ∧
    (wafMiddleware now useInMemory readyState durableOk req verdict s).attempted
      = [blacklistedRecord now now req] ∧
    (blacklistedRecord now now req).attackType = "BLACKLISTED" ∧
    (blacklistedRecord now now req).confidence = 1 ∧
    (blacklistedRecord now now req).blocked = true := by
  obtain ⟨e, he, hle⟩ := (isBlacklisted_true_iff now s req.ip).mp hb
  have hst : (isBlacklisted now s req.ip).2 = s := isBlacklisted_true_state hb
  rcases hbl : isBlacklisted now s req.ip with ⟨b, s1⟩
  rw [hbl] at hb hst
  simp only at hb hst
  subst hb
  subst hst
  refine ⟨by simp [wafMiddleware, hbl], ⟨e, he, hle, ?_⟩, by simp [wafMiddleware, hbl],
    rfl, rfl, rfl⟩
  simp [wafMiddleware, hbl, he]

/-- C4, witness: instantiated on a state blacklisting the request's source. -/
theorem C4_witness :
    (wafMiddleware 5 true 0 true reqSampleBl (.ok false "SAFE" 0) sOneBlocked).classifierCalled
      = false ∧
    (∃ e, mapGet sOneBlocked.ipBlacklist reqSampleBl.ip = some e ∧
      5 - e.blockedAt ≤ BLACKLIST_DURATION ∧
      (wafMiddleware 5 true 0 true reqSampleBl (.ok false "SAFE" 0) sOneBlocked).response
        = .denyBlacklisted e.reason (jsCeil1000 (BLACKLIST_DURATION - (5 - e.blockedAt)))) ∧
    (wafMiddleware 5 true 0 true reqSampleBl (.ok false "SAFE" 0) sOneBlocked).attempted
      = [blacklistedRecord 5 5 reqSampleBl] ∧
    (blacklistedRecord 5 5 reqSampleBl).attackType = "BLACKLISTED" ∧
    (blacklistedRecord 5 5 reqSampleBl).confidence = 1 ∧
    (blacklistedRecord 5 5 reqSampleBl).blocked = true :=
  C4_blacklist_short_circuit 5 true 0 true reqSampleBl (.ok false "SAFE" 0) sOneBlocked
    (by decide)

/-- C5: when the Classification Client returns Failure on a non-blacklisted
request, the pipeline fails open: the attempted DecisionRecord has
`blocked = false`, `attackType = ERROR`, `confidence = 0`, and the request is
forwarded. -/
theorem C5_fail_open (now : Int) (useInMemory : Bool) (readyState : Nat)
    (durableOk : Bool) (req : Request) (s : WafState)
    (hb : (isBlacklisted now s req.ip).1 = false) :
    (wafMiddleware now useInMemory readyState durableOk req .failure s).response = .forward ∧
    (wafMiddleware now useInMemory readyState durableOk req .failure s).attempted
      = [errorRecord now now req] ∧
    (errorRecord now now req).blocked = false ∧
    (errorRecord now now req).attackType = "ERROR" ∧
    (errorRecord now now req).confidence = 0 := by
  rcases hbl : isBlacklisted now s req.ip with ⟨b, s1⟩
  rw [hbl] at hb
  simp only at hb
  subst hb
  exact ⟨by simp [wafMiddleware, hbl, wafErrorPath], by simp [wafMiddleware, hbl, wafErrorPath],
    rfl, rfl, rfl⟩

/-- C5, witness: instantiated on the empty state. -/
theorem C5_witness :
    (wafMiddleware 0 false 1 true reqSample .failure emptyState).response = .forward ∧
    (wafMiddleware 0 false 1 true reqSample .failure emptyState).attempted
      = [errorRecord 0 0 reqSample] ∧
    (errorRecord 0 0 reqSample).blocked = false ∧
    (errorRecord 0 0 reqSample).attackType = "ERROR" ∧
    (errorRecord 0 0 reqSample).confidence = 0 :=
  C5_fail_open 0 false 1 true reqSample emptyState (by decide)

/-- C6, counterexample: the claim says durable mode is selected exactly when the
backend is reachable at the time of the call; but with the startup flag stuck at
`useInMemory = true` (initial connect failed) and the connection later reachable
(`readyState = 1`), `saveLog` still selects the in-memory branch. -/
theorem C6_counterexample :
    saveLogSelectsMemory true 1 = true ∧
    saveLog true 1 true rSample [] = .ok (saveLogMemList rSample []) := by
  exact ⟨rfl, rfl⟩

/-- C6, amended: `saveLog` re-evaluates `mongoose.connection.readyState` on each
call, but only conjoined with the one-time startup flag: when the startup connect
failed (`useInMemory = true`) every call uses the in-memory store regardless of
current reachability, and when it succeeded (`useInMemory = false`) the branch is
decided per call by `readyState != 1`. -/
theorem C6_amended_mode_selection (readyState : Nat) (durableOk : Bool)
    (d : LogRecord) (logs : List LogRecord) :
    saveLog true readyState durableOk d logs = .ok (saveLogMemList d logs) ∧
    saveLogSelectsMemory false readyState = (readyState != 1) := by
  constructor
  · simp [saveLog, saveLogSelectsMemory]
  · simp [saveLogSelectsMemory]

/-- C7, counterexample: a request denied at the blacklist stage is a blocked
decision (`blocked = true` in its DecisionRecord), yet the attack counter for the
address is not incremented — `trackAttack` runs only on classifier-blocked
verdicts, so the claim's "including blacklisted short-circuit denials" fails. -/
theorem C7_counterexample :
    ((wafMiddleware 5 true 0 true reqSampleBl (.ok false "SAFE" 0) sOneBlocked).attempted.map
        LogRecord.blocked) = [true] ∧
    mapGet sOneBlocked.ipAttackCount "1.2.3.4" = none ∧
    mapGet (wafMiddleware 5 true 0 true reqSampleBl (.ok false "SAFE" 0)
        sOneBlocked).state.ipAttackCount "1.2.3.4" = none := by
  decide

/-- C7, amended: the attack counter is incremented by `trackAttack`, which the
pipeline runs exactly on classifier-blocked verdicts (with the decision log write
resolving) — not on blacklisted short-circuit denials; no operation decrements a
counter: `isBlacklisted` eviction (natural expiry) leaves the counter table
untouched, `addToBlacklist` never touches it, and the counter for an address is
cleared exactly when `DELETE /api/blacklist/:ip` finds and removes its entry. -/
theorem C7_amended_counter_lifecycle (now : Int) (useInMemory : Bool) (readyState : Nat)
    (durableOk : Bool) (req : Request) (t : String) (c : Rat) (s : WafState)
    (n2 : Int) (s2 : WafState) (ip2 : String)
    (n3 : Int) (s3 : WafState) (ip3 r3 : String) (a3 : Bool)
    (n4 : Int) (s4 : WafState) (ip4 t4 : String)
    (s5 : WafState) (ip5 : String)
    (hb : (isBlacklisted now s req.ip).1 = false)
    (hm : saveLogSelectsMemory useInMemory readyState = true) :
    mapGet (wafMiddleware now useInMemory readyState durableOk req
        (.ok true t c) s).state.ipAttackCount req.ip
      = some ((mapGet s.ipAttackCount req.ip).getD 0 + 1) ∧
    (isBlacklisted n2 s2 ip2).2.ipAttackCount = s2.ipAttackCount ∧
    (addToBlacklist n3 s3 ip3 r3 a3).ipAttackCount = s3.ipAttackCount ∧
    mapGet (trackAttack n4 s4 ip4 t4).ipAttackCount ip4
      = some ((mapGet s4.ipAttackCount ip4).getD 0 + 1) ∧
    (deleteBlacklist s5 ip5).2.ipAttackCount
      = (if (mapGet s5.ipBlacklist ip5).isSome then mapDelete s5.ipAttackCount ip5
         else s5.ipAttackCount) := by
  rcases hbl : isBlacklisted now s req.ip with ⟨b, s1⟩
  rw [hbl] at hb
  simp only at hb
  subst hb
  have hcnt : s1.ipAttackCount = s.ipAttackCount := by
    have h2 := isBlacklisted_ipAttackCount now s req.ip
    rw [hbl] at h2
    exact h2
  have hsl : saveLog useInMemory readyState durableOk
      (classifiedRecord now now req true t c) s1.inMemoryLogs
      = .ok (saveLogMemList (classifiedRecord now now req true t c) s1.inMemoryLogs) := by
    simp [saveLog, hm]
  refine ⟨?_, isBlacklisted_ipAttackCount n2 s2 ip2, rfl,
    trackAttack_ipAttackCount n4 s4 ip4 t4, ?_⟩
  · simp only [wafMiddleware, hbl, hsl, if_true]
    rw [trackAttack_ipAttackCount]
    simp [hcnt]
  · by_cases hp : (mapGet s5.ipBlacklist ip5).isSome = true
    · simp [deleteBlacklist, hp]
    · simp [deleteBlacklist, hp]

/-- C7, amended, witness: instantiated on the empty state with a blocked verdict. -/
theorem C7_amended_witness :
    mapGet (wafMiddleware 0 true 0 true reqSample
        (.ok true "SQL_INJECTION" 0) emptyState).state.ipAttackCount reqSample.ip
      = some ((mapGet emptyState.ipAttackCount reqSample.ip).getD 0 + 1) ∧
    (isBlacklisted 0 sOneBlocked "1.2.3.4").2.ipAttackCount = sOneBlocked.ipAttackCount ∧
    (addToBlacklist 0 emptyState "9.9.9.9" "r" true).ipAttackCount
      = emptyState.ipAttackCount ∧
    mapGet (trackAttack 0 emptyState "9.9.9.9" "XSS").ipAttackCount "9.9.9.9"
      = some ((mapGet emptyState.ipAttackCount "9.9.9.9").getD 0 + 1) ∧
    (deleteBlacklist sOneBlocked "1.2.3.4").2.ipAttackCount
      = (if (mapGet sOneBlocked.ipBlacklist "1.2.3.4").isSome
         then mapDelete sOneBlocked.ipAttackCount "1.2.3.4"
         else sOneBlocked.ipAttackCount) :=
  C7_amended_counter_lifecycle 0 true 0 true reqSample "SQL_INJECTION" 0 emptyState
    0 sOneBlocked "1.2.3.4" 0 emptyState "9.9.9.9" "r" true 0 emptyState "9.9.9.9" "XSS"
    sOneBlocked "1.2.3.4" (by decide) rfl

/-- C9: `GET /api/logs` paginates the newest-first log list with
`skip = (page - 1) * limit`; after 120 records are saved, `page = 3, limit = 50`
returns exactly the 20 oldest records (positions 101 through 120 of the
newest-first list, which are the first 20 saved, in reverse order), with the
total count 120. -/
theorem C9_pagination (ds : List LogRecord) (h : ds.length = 120) :
    apiLogs 3 50 (ds.foldl (fun a d => saveLogMemList d a) [])
      = ((ds.take 20).reverse, 120) := by
  have hcap : ds.length + ([] : List LogRecord).length ≤ MAX_MEMORY_LOGS := by
    simp [h, MAX_MEMORY_LOGS]
  have hbuild : ds.foldl (fun a d => saveLogMemList d a) [] = ds.reverse := by
    simpa using buildLogs_eq ds [] hcap
  rw [hbuild]
  have hlen : (ds.reverse.drop ((3 - 1) * 50)).length ≤ 50 := by simp [h]
  simp only [apiLogs, Prod.mk.injEq]
  refine ⟨?_, by simp [h]⟩
  rw [List.take_of_length_le hlen, List.reverse_take, h]

/-- C9, witness: instantiated on 120 copies of a sample record. -/
theorem C9_witness :
    apiLogs 3 50 ((List.replicate 120 rSample).foldl (fun a d => saveLogMemList d a) [])
      = (((List.replicate 120 rSample).take 20).reverse, 120) :=
  C9_pagination (List.replicate 120 rSample) (by simp)

/-- C8: the `/proxy` handler relays any response received from the origin with the
origin's status and body (both on the resolve branch and through the
`error.response` catch branch), and on connection failure or timeout synthesizes a
502 with the fixed `Bad Gateway` payload, never a raw transport exception. -/
theorem C8_forwarder_relay_or_502 (status : Nat) (body : String) :
    proxyForward (.response status body) = (status, .origin body) ∧
    proxyForward .noResponse
      = (502, .gatewayError "Bad Gateway" "Unable to reach target server") := by
  constructor
  · simp only [proxyForward]
    split <;> rfl
  · rfl

/-- C10: the `blacklistedIPs` field of `GET /api/health` is the raw size of the
blacklist table, counting entries already past expiry that have not been lazily
purged, while `GET /api/blacklist` returns exactly the unexpired entries; on a
state holding one expired entry the health count strictly exceeds the listing
count. -/
theorem C10_health_counts_all_entries (s : WafState) (now : Int) :
    apiHealthBlacklistedIPs s = s.ipBlacklist.length ∧
    (apiBlacklistList now s).length
      = (s.ipBlacklist.filter
          (fun p => decide (now - p.2.blockedAt ≤ BLACKLIST_DURATION))).length ∧
    (apiBlacklistList (BLACKLIST_DURATION + 1) sExpiredEntry).length
      < apiHealthBlacklistedIPs sExpiredEntry :=
  ⟨rfl, length_blacklistEntries now s.ipBlacklist, by decide⟩

end Weja
